import Mathlib

/-!
Shallow embedding of `src/shothammer.py` (the "sghs" ShotGrid → Hammerspace
tag bridge) for verifying the natural-language specification.

The Python module processes one ShotGrid change event per callback
invocation: it classifies the event (project allow-list), resolves the
shot's filesystem path through a per-entity bootstrapped toolkit engine,
and mirrors the event's added/removed tags as `hs keyword` commands on that
path.  External collaborators (the `find_one` query, the path template's
`apply_fields`, the capture-file write, the template registry lookup) are
modelled by an `Env` oracle record; observable side effects (queries issued,
template calls, keyword shell commands, capture writes, error logs, engine
teardown) are collected in a trace list, and Python exceptions are modelled
by `Except PyErr`.
-/

/-- Python exception classes that appear in `shothammer.py`'s control flow. -/
inductive PyErr where
  | typeError
  | tankError (msg : String)
  | keyError
  | ioError
  | otherError
  deriving DecidableEq, Repr

/-- A Python value as far as the `%` string-format operator cares:
an `int` or a `str`. -/
inductive PyVal where
  | pyint (i : Int)
  | pystr (s : String)
  deriving DecidableEq, Repr

/-- Embeds Python's `fmt % v` for a format string containing `%i`:
formatting an `int` substitutes its decimal form, while formatting a `str`
with `%i` raises `TypeError` (as in CPython). -/
def percentI (fmt : String) (v : PyVal) : Except PyErr String :=
  match v with
  | .pyint i => .ok (fmt.replace "%i" (toString i))
  | .pystr _ => .error .typeError

/-- The `event['project']` sub-dict (`None` is modelled by `Option`). -/
structure ProjectRef where
  id : Int
  name : String
  deriving DecidableEq, Repr

/-- The `event['entity']` sub-dict: the shot's id and display code. -/
structure EntityRef where
  id : Int
  name : String
  deriving DecidableEq, Repr

/-- One element of `event['meta']['added']` / `['removed']`: a tag dict,
of which only `'name'` is ever read. -/
structure TagRef where
  name : String
  deriving DecidableEq, Repr

/-- The `event['meta']` sub-dict. -/
structure Meta where
  type : String
  added : List TagRef
  removed : List TagRef
  deriving DecidableEq, Repr

/-- `event['created_at']`, a `datetime.datetime` to second precision
(the only precision `strftime("%Y-%m-%d_%H-%M-%S")` uses). -/
structure PyDateTime where
  year : Nat
  month : Nat
  day : Nat
  hour : Nat
  minute : Nat
  second : Nat
  deriving DecidableEq, Repr

/-- A ShotGrid `EventLogEntry` dict, restricted to the keys the module
reads.  `project` is `Option` because ShotGrid delivers `None` projects. -/
structure Event where
  project : Option ProjectRef
  entity : EntityRef
  meta : Meta
  created_at : PyDateTime
  deriving DecidableEq, Repr

/-- A linked sequence entity as returned in the `sg_sequence` field of a
shot record (a dict with at least `id` and `name`). -/
structure SequenceRef where
  id : Int
  name : String
  deriving DecidableEq, Repr

/-- A linked episode entity as returned in the `sg_episode` field. -/
structure EpisodeRef where
  id : Int
  name : String
  deriving DecidableEq, Repr

/-- The record returned by
`find_one("Shot", filters, ["id","type","code","sg_episode","sg_sequence"])`.
Nullable fields are `Option`s. -/
structure FullShot where
  id : Int
  type : String
  code : Option String
  sg_episode : Option EpisodeRef
  sg_sequence : Option SequenceRef
  deriving DecidableEq, Repr

/-- A Python value that can end up in the dict passed to `apply_fields`:
`None`, a string, or a raw linked-entity dict. -/
inductive SGValue where
  | none
  | str (s : String)
  | entity (e : SequenceRef)
  deriving DecidableEq, Repr

/-- The dict `{'Shot': …, 'Sequence': …, 'Episode': …}` handed to
`work_shot_area_template.apply_fields`. -/
structure FieldMap where
  Shot : SGValue
  Sequence : SGValue
  Episode : SGValue
  deriving DecidableEq, Repr

/-- One `["field", "op", value]` element of a `find_one` filter list. -/
structure SGFilter where
  field : String
  op : String
  value : Int
  deriving DecidableEq, Repr

/-- Observable side effects of one callback invocation, in program order. -/
inductive Effect where
  | findOne (entity_type : String) (filters : List SGFilter) (fields : List String)
  | applyFields (fm : FieldMap)
  | logError (msg : String)
  | logWarn (msg : String)
  | capture (filename : String)
  | engineDestroy
  | keywordAdd (path keyword : String) (recursive : Bool)
  | keywordDelete (path keyword : String) (recursive : Bool)
  deriving DecidableEq, Repr

abbrev Trace := List Effect

/-- Oracle for the external collaborators of one invocation:
* `templates` — outcome of `engine.sgtk.templates["work_shot_area"]`
  (raises e.g. `KeyError` when the template is missing);
* `findOneResult` — outcome of `engine.shotgun.find_one` (`.ok none`
  models a lookup that returns no record, `.error` a raised exception);
* `applyFields` — outcome of `work_shot_area_template.apply_fields`
  (`.error (.tankError msg)` models `tank.errors.TankError`);
* `captureOk` — whether a `capture_event` file write succeeds
  (`false` models an `OSError`/`IOError` raised by `open`/`pickle.dump`). -/
structure Env where
  templates : Except PyErr Unit
  findOneResult : Except PyErr (Option FullShot)
  applyFields : FieldMap → Except PyErr String
  captureOk : Bool

/-- Process-wide configuration read from `shothammer_config.ini`.
`sghs_projects = none` embeds lines 16-19: the empty `SGHS_PROJECTS`
string becomes the Python value `None`; a non-empty string becomes the
parsed `int` list. -/
structure Config where
  sghs_projects : Option (List Int)
  sghs_tag_namespace : String
  capture_last_event : Bool
  last_event_file : String

/-- `project_name_from_event`: `event['project']['name']`; raises
`TypeError` when the project is `None`. -/
def project_name_from_event (event : Event) : Except PyErr String :=
  match event.project with
  | Option.none => .error .typeError
  | some p => .ok p.name

/-- `get_project_id`: `event['project']['id']` (callers only reach it with
a non-`None` project). -/
def get_project_id (event : Event) : Except PyErr Int :=
  match event.project with
  | Option.none => .error .typeError
  | some p => .ok p.id

/-- `get_shot_code`: `event['entity']['name']`, the display code string. -/
def get_shot_code (event : Event) : String :=
  event.entity.name

/-- `is_attribute_change`: `event['meta']['type'] == 'attribute_change'`.
(Defined in the source but never called by `shothammer`.) -/
def is_attribute_change (event : Event) : Bool :=
  event.meta.type == "attribute_change"

/-- `capture_event(event, filename)`: writes a pickle of the event to
`filename`; on success the write is the observable effect, on failure the
underlying I/O exception propagates (there is no handler in the source). -/
def capture_event (env : Env) (filename : String) : Except PyErr Unit × Trace :=
  if env.captureOk then (.ok (), [Effect.capture filename])
  else (.error .ioError, [])

/-- Zero-padding as done by `datetime.strftime`'s numeric directives. -/
def zeroPad (w : Nat) (n : Nat) : String :=
  let s := toString n
  if s.length < w then String.mk (List.replicate (w - s.length) '0') ++ s else s

/-- `event_time.strftime("%Y-%m-%d_%H-%M-%S")` (line 207). -/
def strftime_date_string (t : PyDateTime) : String :=
  zeroPad 4 t.year ++ "-" ++ zeroPad 2 t.month ++ "-" ++ zeroPad 2 t.day ++ "_" ++
    zeroPad 2 t.hour ++ "-" ++ zeroPad 2 t.minute ++ "-" ++ zeroPad 2 t.second

/-- `"shot_id-%s-%s.pickle" % (shot_id, date_string)` (line 208). -/
def failureCaptureFilename (shot_id : Int) (t : PyDateTime) : String :=
  "shot_id-" ++ toString shot_id ++ "-" ++ strftime_date_string t ++ ".pickle"

/-- Lines 180-194: the three `try/except TypeError` blocks deriving
`Shot`, `Sequence` and `Episode` from `full_shot`.
* `full_shot['code']` raises `TypeError` (subscripting `None`) exactly when
  `full_shot` is `None`, in which case `Shot = None`; otherwise `Shot` is
  the field value (possibly `None`).
* `full_shot['sg_sequence']` likewise; note the raw linked-entity dict is
  used, `['name']` is never taken.
* `full_shot['sg_episode']['name']` raises `TypeError` when `full_shot`
  is `None` or when `sg_episode` is `None`; both are caught, `Episode = None`. -/
def shotFieldMap (full_shot : Option FullShot) : FieldMap :=
  { Shot := match full_shot with
      | Option.none => SGValue.none
      | some fs => match fs.code with
        | Option.none => SGValue.none
        | some c => SGValue.str c
    Sequence := match full_shot with
      | Option.none => SGValue.none
      | some fs => match fs.sg_sequence with
        | Option.none => SGValue.none
        | some e => SGValue.entity e
    Episode := match full_shot with
      | Option.none => SGValue.none
      | some fs => match fs.sg_episode with
        | Option.none => SGValue.none
        | some e => SGValue.str e.name }

/-- Modelled from the spec (§4.3): the field map the specification says the
Path Composer builds, `{Shot: code, Sequence: sequenceName, Episode:
episodeName}` — each value the record's *name* string (or absent).  Used
only to compare against `shotFieldMap`, which embeds the source. -/
def specFieldMap (fs : FullShot) : FieldMap :=
  { Shot := match fs.code with
      | Option.none => SGValue.none
      | some c => SGValue.str c
    Sequence := match fs.sg_sequence with
      | Option.none => SGValue.none
      | some e => SGValue.str e.name
    Episode := match fs.sg_episode with
      | Option.none => SGValue.none
      | some e => SGValue.str e.name }

/-- Python's `str.startswith`: does `s` start with `pre`?  Modelled on the
character sequence. -/
def startswith (s pre : String) : Bool :=
  pre.data.isPrefixOf s.data

/-- `hs_keyword_add(path, keyword, recursive)` (lines 230-243): a no-op
unless `keyword.startswith(SGHS_TAG_NAMESPACE)`, else exactly one
`hs keyword add` shell command. -/
def hs_keyword_add (ns path keyword : String) (recursive : Bool) : Trace :=
  if ¬ startswith keyword ns then []
  else [Effect.keywordAdd path keyword recursive]

/-- `hs_keyword_delete(path, keyword, recursive)` (lines 245-258). -/
def hs_keyword_delete (ns path keyword : String) (recursive : Bool) : Trace :=
  if ¬ startswith keyword ns then []
  else [Effect.keywordDelete path keyword recursive]

/-- `add_tags(logger, event, path)` (lines 116-129): each
`event['meta']['added']` element's name, in order, through
`hs_keyword_add(path, tag, recursive=False)`. -/
def add_tags (ns : String) (event : Event) (path : String) : Trace :=
  let tags_to_add := event.meta.added.map TagRef.name
  tags_to_add.flatMap fun tag => hs_keyword_add ns path tag false

/-- `remove_tags(logger, event, path)` (lines 131-142). -/
def remove_tags (ns : String) (event : Event) (path : String) : Trace :=
  let tags_to_remove := event.meta.removed.map TagRef.name
  tags_to_remove.flatMap fun tag => hs_keyword_delete ns path tag false

/-- `bootstrap_engine_to_shot_path(logger, event)` (lines 145-216).
Bootstraps a per-shot engine, looks the shot up, composes the path with
`apply_fields`, captures the event on `TankError`, and calls
`engine.destroy()` — which, in the source, sits on the straight-line path
after the `try/except tank.errors.TankError`, with no `finally`: any other
exception (template lookup, `find_one`, capture write) skips it. -/
def bootstrap_engine_to_shot_path (env : Env) (event : Event) :
    Except PyErr (Option String) × Trace :=
  let shot_id := event.entity.id
  match env.templates with
  | .error e => (.error e, [])
  | .ok () =>
    let filters : List SGFilter := [⟨"id", "is", shot_id⟩]
    let fields : List String := ["id", "type", "code", "sg_episode", "sg_sequence"]
    match env.findOneResult with
    | .error e => (.error e, [Effect.findOne "Shot" filters fields])
    | .ok full_shot =>
      let fm := shotFieldMap full_shot
      match env.applyFields fm with
      | .ok result =>
        (.ok (some result),
          [Effect.findOne "Shot" filters fields, Effect.applyFields fm,
           Effect.engineDestroy])
      | .error (.tankError msg) =>
        let date_string := strftime_date_string event.created_at
        let filename := "shot_id-" ++ toString shot_id ++ "-" ++ date_string ++ ".pickle"
        let logmsg := "Unable to apply all required fields, saving event as " ++ filename
          ++ "\nException message: " ++ msg
        match capture_event env filename with
        | (.ok (), ct) =>
          (.ok Option.none,
            [Effect.findOne "Shot" filters fields, Effect.applyFields fm,
             Effect.logError logmsg] ++ ct ++ [Effect.engineDestroy])
        | (.error e, ct) =>
          (.error e,
            [Effect.findOne "Shot" filters fields, Effect.applyFields fm,
             Effect.logError logmsg] ++ ct)
      | .error e =>
        (.error e, [Effect.findOne "Shot" filters fields, Effect.applyFields fm])

/-- `shothammer(sg, logger, event, args)` (lines 77-105), the callback.
* Lines 87-91: `project_name_from_event` raising `TypeError` (project is
  `None`) is caught, but the handler's own
  `"Project is none in event from shot %i" % get_shot_code(event)` applies
  `%i` to a `str` and raises a new `TypeError` that escapes the handler.
* Lines 93-94: optional last-event capture to `LAST_EVENT_FILE`.
* Line 98: `get_project_id(event) in SGHS_PROJECTS` — when the configured
  allow-list was empty, `SGHS_PROJECTS` is `None` and the membership test
  raises `TypeError`.
* Lines 103-105: Python truthiness of `if path:` — `None` and `""` both
  skip the tag reconciliation. -/
def shothammer (cfg : Config) (env : Env) (event : Event) :
    Except PyErr Unit × Trace :=
  match event.project with
  | Option.none =>
    match percentI "Project is none in event from shot %i" (.pystr (get_shot_code event)) with
    | .error e => (.error e, [])
    | .ok msg => (.ok (), [Effect.logWarn msg])
  | some project =>
    match (if cfg.capture_last_event then capture_event env cfg.last_event_file
           else (.ok (), [])) with
    | (.error e, t0) => (.error e, t0)
    | (.ok (), t0) =>
      match cfg.sghs_projects with
      | Option.none => (.error .typeError, t0)
      | some allowed =>
        if project.id ∈ allowed then
          match bootstrap_engine_to_shot_path env event with
          | (.error e, t1) => (.error e, t0 ++ t1)
          | (.ok Option.none, t1) => (.ok (), t0 ++ t1)
          | (.ok (some path), t1) =>
            if path = "" then (.ok (), t0 ++ t1)
            else
              (.ok (), t0 ++ t1 ++ add_tags cfg.sghs_tag_namespace event path
                ++ remove_tags cfg.sghs_tag_namespace event path)
        else (.ok (), t0)

/-- Is an effect a keyword shell command? -/
def isKeywordCmd : Effect → Bool
  | .keywordAdd _ _ _ => true
  | .keywordDelete _ _ _ => true
  | _ => false

/-- Is an effect a `find_one` query? -/
def isFindOne : Effect → Bool
  | .findOne _ _ _ => true
  | _ => false

/-- The filename of a capture-write effect, if it is one. -/
def captureFile : Effect → Option String
  | .capture f => some f
  | _ => Option.none

/-- Does a keyword shell command carry a keyword inside the namespace?
(Trivially true for non-keyword effects.) -/
def keywordNsOk (ns : String) : Effect → Bool
  | .keywordAdd _ k _ => startswith k ns
  | .keywordDelete _ k _ => startswith k ns
  | _ => true

/-! ## Concrete fixtures and derived definitions -/

/-- The `find_one` query effect issued for a given shot id. -/
def findOneEffect (shot_id : Int) : Effect :=
  Effect.findOne "Shot" [⟨"id", "is", shot_id⟩]
    ["id", "type", "code", "sg_episode", "sg_sequence"]

/-- The error-log message emitted on composition failure (line 209). -/
def tankLogMsg (filename msg : String) : String :=
  "Unable to apply all required fields, saving event as " ++ filename
    ++ "\nException message: " ++ msg

/-- A string contains no path separator (so it names a file relative to the
process working directory, with no directory component). -/
def noSep (s : String) : Prop :=
  ∀ c ∈ s.data, c ≠ '/' ∧ c ≠ '\\'

instance (s : String) : Decidable (noSep s) := by
  unfold noSep
  infer_instance

/-- A project reference `{'id': 5, 'name': 'proj'}` for concrete runs. -/
def projEx : ProjectRef := ⟨5, "proj"⟩

/-- An entity reference `{'id': 9502, 'name': 'ep01_sh010'}`. -/
def entityEx : EntityRef := ⟨9502, "ep01_sh010"⟩

/-- A concrete event timestamp, 2021-03-04 05:06:07. -/
def dtEx : PyDateTime := ⟨2021, 3, 4, 5, 6, 7⟩

/-- An attribute-change meta adding the namespaced tag `sghs:hero`. -/
def metaEx : Meta := ⟨"attribute_change", [⟨"sghs:hero"⟩], []⟩

/-- A fully in-scope concrete event. -/
def eventEx : Event := ⟨some projEx, entityEx, metaEx, dtEx⟩

/-- A complete shot record for entity 9502. -/
def fullShotEx : FullShot := ⟨9502, "Shot", some "sh010", some ⟨21, "ep01"⟩, some ⟨31, "seq01"⟩⟩

/-- Configuration with allow-list `[5]`, namespace `sghs:`, last-event
capture off. -/
def cfgEx : Config := ⟨some [5], "sghs:", false, "last_event.pickle"⟩

/-- Configuration whose `SGHS_PROJECTS` setting was the empty string, so
the parsed allow-list is Python `None`. -/
def cfgEmpty : Config := ⟨Option.none, "sghs:", false, "last_event.pickle"⟩

/-- Collaborators that all succeed: template present, lookup returns the
full record, composition yields a path, capture writes succeed. -/
def envOkEx : Env := ⟨.ok (), .ok (some fullShotEx), fun _ => .ok "/proj/seq01/ep01/sh010", true⟩

/-- An event identical to `eventEx` except `metaType` is `new_entity`,
not a tag-attribute change. -/
def evC2 : Event := ⟨some projEx, entityEx, ⟨"new_entity", [⟨"sghs:hero"⟩], []⟩, dtEx⟩

/-- Collaborators where the shot lookup raises (e.g. a network error):
used to exhibit the engine leak. -/
def envFindRaiseEx : Env :=
  ⟨.ok (), .error .otherError, fun _ => .ok "/proj/seq01/ep01/sh010", true⟩

/-- An event whose `project` is `None` (null project), as ShotGrid
delivers for project-less entities. -/
def evNoProjEx : Event := ⟨Option.none, entityEx, metaEx, dtEx⟩

/-- Collaborators where composition always fails with a `TankError`
(required template field missing), lookup returning a record lacking
`code`. -/
def envTankEx : Env :=
  ⟨.ok (), .ok (some ⟨9502, "Shot", Option.none, some ⟨21, "ep01"⟩, some ⟨31, "seq01"⟩⟩),
   fun _ => .error (.tankError "missing Shot"), true⟩

/-- The same event as `eventEx` but with the namespaced tag `sghs:x` in
both the added and the removed list. -/
def evBothEx : Event :=
  ⟨some projEx, entityEx, ⟨"attribute_change", [⟨"sghs:x"⟩], [⟨"sghs:x"⟩]⟩, dtEx⟩

/-- Collaborators where the lookup returns no record and composition then
fails on the missing fields. -/
def envNullLookupEx : Env :=
  ⟨.ok (), .ok Option.none, fun _ => .error (.tankError "missing fields"), true⟩

/-- Configuration like `cfgEx` but with the last-event capture enabled. -/
def cfgLastEx : Config := ⟨some [5], "sghs:", true, "last_event.pickle"⟩

/-! ## Supporting lemmas -/

/-- A guarded `flatMap` producing zero-or-one elements is a filtered map. -/
theorem flatMap_guard {α : Type} (l : List String) (p : String → Bool) (f : String → α) :
    (l.flatMap fun t => if p t then [f t] else []) = (l.filter p).map f := by
  induction l with
  | nil => rfl
  | cons a l ih =>
    by_cases h : p a <;>
      simp [List.flatMap_cons, List.filter_cons, h, ih]

/-- `add_tags` issues exactly the namespace-filtered added tags, in order,
as non-recursive keyword-add commands. -/
theorem add_tags_eq (ns : String) (event : Event) (path : String) :
    add_tags ns event path
      = ((event.meta.added.map TagRef.name).filter fun t => startswith t ns).map
          fun t => Effect.keywordAdd path t false := by
  simp only [add_tags, hs_keyword_add, ite_not]
  exact flatMap_guard _ _ _

/-- `remove_tags` issues exactly the namespace-filtered removed tags, in
order, as non-recursive keyword-delete commands. -/
theorem remove_tags_eq (ns : String) (event : Event) (path : String) :
    remove_tags ns event path
      = ((event.meta.removed.map TagRef.name).filter fun t => startswith t ns).map
          fun t => Effect.keywordDelete path t false := by
  simp only [remove_tags, hs_keyword_delete, ite_not]
  exact flatMap_guard _ _ _

/-- A non-keyword effect trivially satisfies the namespace invariant. -/
theorem not_keyword_nsOk {e : Effect} (h : isKeywordCmd e = false) (ns : String) :
    keywordNsOk ns e = true := by
  cases e <;> simp_all [isKeywordCmd, keywordNsOk]

/-- The path-resolution stage issues no keyword commands. -/
theorem bootstrap_no_keyword (env : Env) (event : Event) :
    ∀ e ∈ (bootstrap_engine_to_shot_path env event).2, isKeywordCmd e = false := by
  intro e he
  rcases h1 : env.templates with e1 | u
  · simp [bootstrap_engine_to_shot_path, h1] at he
  · cases u
    rcases h2 : env.findOneResult with e2 | fs
    · simp [bootstrap_engine_to_shot_path, h1, h2] at he
      subst he; rfl
    · rcases h3 : env.applyFields (shotFieldMap fs) with e3 | p
      · rcases e3 with _ | msg | _ | _ | _
        case tankError =>
          by_cases h4 : env.captureOk
          · simp [bootstrap_engine_to_shot_path, capture_event, h1, h2, h3, h4] at he
            rcases he with rfl | rfl | rfl | rfl | rfl <;> rfl
          · simp [bootstrap_engine_to_shot_path, capture_event, h1, h2, h3, h4] at he
            rcases he with rfl | rfl | rfl <;> rfl
        all_goals
          simp [bootstrap_engine_to_shot_path, h1, h2, h3] at he
        all_goals
          rcases he with rfl | rfl <;> rfl
      · simp [bootstrap_engine_to_shot_path, h1, h2, h3] at he
        rcases he with rfl | rfl | rfl <;> rfl

/-- The optional last-event capture step issues no keyword commands. -/
theorem captureStep_no_keyword (cfg : Config) (env : Env) (t0 : Trace)
    (ht0 : (if cfg.capture_last_event then capture_event env cfg.last_event_file
            else (.ok (), [])) = (.ok (), t0)) :
    ∀ e ∈ t0, isKeywordCmd e = false := by
  by_cases hc : cfg.capture_last_event
  · by_cases hk : env.captureOk
    · simp [hc, hk, capture_event] at ht0
      subst ht0
      intro e he
      simp at he
      subst he; rfl
    · simp [hc, hk, capture_event] at ht0
  · simp [hc] at ht0
    subst ht0
    intro e he
    simp at he

/-- Reduction of `shothammer` on an event that passes classification:
project present, allow-list present and matching, last-event step
succeeding with trace `t0`. -/
theorem shothammer_allowed_eq (cfg : Config) (env : Env) (event : Event)
    (proj : ProjectRef) (allowed : List Int) (t0 : Trace)
    (hproj : event.project = some proj)
    (hallow : cfg.sghs_projects = some allowed)
    (hmem : proj.id ∈ allowed)
    (ht0 : (if cfg.capture_last_event then capture_event env cfg.last_event_file
            else (.ok (), [])) = (.ok (), t0)) :
    shothammer cfg env event =
      match bootstrap_engine_to_shot_path env event with
      | (.error e, t1) => (.error e, t0 ++ t1)
      | (.ok Option.none, t1) => (.ok (), t0 ++ t1)
      | (.ok (some path), t1) =>
        if path = "" then (.ok (), t0 ++ t1)
        else (.ok (), t0 ++ t1 ++ add_tags cfg.sghs_tag_namespace event path
          ++ remove_tags cfg.sghs_tag_namespace event path) := by
  unfold shothammer
  rw [hproj, ht0, hallow]
  simp [hmem]

/-- Path resolution on the success path: one lookup, one template call,
then teardown. -/
theorem bootstrap_ok_eq (env : Env) (event : Event) (fs : Option FullShot) (p : String)
    (htempl : env.templates = .ok ())
    (hfind : env.findOneResult = .ok fs)
    (happly : env.applyFields (shotFieldMap fs) = .ok p) :
    bootstrap_engine_to_shot_path env event =
      (.ok (some p),
        [findOneEffect event.entity.id, Effect.applyFields (shotFieldMap fs),
         Effect.engineDestroy]) := by
  simp [bootstrap_engine_to_shot_path, findOneEffect, htempl, hfind, happly]

/-- Path resolution on the handled composition-failure path: one lookup,
one template call, one error log, one capture with the generated filename,
then teardown, returning `None` without raising. -/
theorem bootstrap_tank_eq (env : Env) (event : Event) (fs : Option FullShot) (msg : String)
    (htempl : env.templates = .ok ())
    (hfind : env.findOneResult = .ok fs)
    (happly : env.applyFields (shotFieldMap fs) = .error (.tankError msg))
    (hcap : env.captureOk = true) :
    bootstrap_engine_to_shot_path env event =
      (.ok Option.none,
        [findOneEffect event.entity.id, Effect.applyFields (shotFieldMap fs),
         Effect.logError
           (tankLogMsg (failureCaptureFilename event.entity.id event.created_at) msg),
         Effect.capture (failureCaptureFilename event.entity.id event.created_at),
         Effect.engineDestroy]) := by
  simp [bootstrap_engine_to_shot_path, capture_event, findOneEffect, tankLogMsg,
    failureCaptureFilename, htempl, hfind, happly, hcap]

theorem noSep_append {a b : String} (ha : noSep a) (hb : noSep b) : noSep (a ++ b) := by
  intro c hc
  rw [String.data_append] at hc
  rcases List.mem_append.mp hc with h | h
  · exact ha c h
  · exact hb c h

theorem digitChar_not_sep (n : Nat) : Nat.digitChar n ≠ '/' ∧ Nat.digitChar n ≠ '\\' := by
  rcases Nat.lt_or_ge n 16 with h | h
  · -- small digits: sixteen concrete characters, none a separator
    interval_cases n <;> exact ⟨by decide, by decide⟩
  · -- past the hexadecimal range every branch condition is false
    have h16 : Nat.digitChar n = '*' := by
      unfold Nat.digitChar
      repeat rw [if_neg (by omega)]
    rw [h16]
    exact ⟨by decide, by decide⟩

theorem toDigitsCore_not_sep (b : Nat) :
    ∀ (f n : Nat) (l : List Char), (∀ c ∈ l, c ≠ '/' ∧ c ≠ '\\') →
      ∀ c ∈ Nat.toDigitsCore b f n l, c ≠ '/' ∧ c ≠ '\\' := by
  intro f
  induction f with
  | zero =>
    intro n l hl c hc
    exact hl c hc
  | succ f ih =>
    intro n l hl c hc
    simp only [Nat.toDigitsCore] at hc
    have hcons : ∀ c' ∈ Nat.digitChar (n % b) :: l, c' ≠ '/' ∧ c' ≠ '\\' := by
      intro c' hc'
      rcases List.mem_cons.mp hc' with rfl | h
      · exact digitChar_not_sep _
      · exact hl c' h
    split at hc
    · exact hcons c hc
    · exact ih (n / b) _ hcons c hc

theorem natRepr_not_sep (n : Nat) : noSep (Nat.repr n) := by
  intro c hc
  have h : (Nat.repr n).data = Nat.toDigitsCore 10 (n + 1) n [] := rfl
  rw [h] at hc
  exact toDigitsCore_not_sep 10 (n + 1) n [] (by simp) c hc

theorem intToString_not_sep (i : Int) : noSep (toString i) := by
  cases i with
  | ofNat m => exact natRepr_not_sep m
  | negSucc m =>
    have h : toString (Int.negSucc m) = "-" ++ Nat.repr (m + 1) := rfl
    rw [h]
    exact noSep_append (by decide) (natRepr_not_sep (m + 1))

theorem zeroPad_not_sep (w n : Nat) : noSep (zeroPad w n) := by
  have heq : zeroPad w n = if (toString n).length < w
      then String.mk (List.replicate (w - (toString n).length) '0') ++ toString n
      else toString n := rfl
  rw [heq]
  by_cases hlt : (toString n).length < w
  · rw [if_pos hlt]
    refine noSep_append ?_ (natRepr_not_sep n)
    intro c hc
    have h : (String.mk (List.replicate (w - (toString n).length) '0')).data
        = List.replicate (w - (toString n).length) '0' := rfl
    rw [h] at hc
    have hc0 := List.eq_of_mem_replicate hc
    subst hc0
    exact ⟨by decide, by decide⟩
  · rw [if_neg hlt]
    exact natRepr_not_sep n

theorem strftime_not_sep (t : PyDateTime) : noSep (strftime_date_string t) := by
  unfold strftime_date_string
  refine noSep_append (noSep_append (noSep_append (noSep_append (noSep_append
    (noSep_append (noSep_append (noSep_append (noSep_append (noSep_append
      (zeroPad_not_sep 4 t.year) (by decide)) (zeroPad_not_sep 2 t.month)) (by decide))
      (zeroPad_not_sep 2 t.day)) (by decide)) (zeroPad_not_sep 2 t.hour)) (by decide))
      (zeroPad_not_sep 2 t.minute)) (by decide)) (zeroPad_not_sep 2 t.second)

theorem failureCaptureFilename_not_sep (shot_id : Int) (t : PyDateTime) :
    noSep (failureCaptureFilename shot_id t) := by
  unfold failureCaptureFilename
  exact noSep_append (noSep_append (noSep_append (noSep_append
    (by decide) (intToString_not_sep shot_id)) (by decide))
    (strftime_not_sep t)) (by decide)

/-- Every keyword command `add_tags` issues is inside the namespace. -/
theorem add_tags_ns (ns : String) (event : Event) (path : String) :
    ∀ e ∈ add_tags ns event path, keywordNsOk ns e = true := by
  rw [add_tags_eq]
  intro e he
  simp only [List.mem_map, List.mem_filter] at he
  obtain ⟨t, ⟨_, ht⟩, rfl⟩ := he
  simpa [keywordNsOk] using ht

/-- Every keyword command `remove_tags` issues is inside the namespace. -/
theorem remove_tags_ns (ns : String) (event : Event) (path : String) :
    ∀ e ∈ remove_tags ns event path, keywordNsOk ns e = true := by
  rw [remove_tags_eq]
  intro e he
  simp only [List.mem_map, List.mem_filter] at he
  obtain ⟨t, ⟨_, ht⟩, rfl⟩ := he
  simpa [keywordNsOk] using ht

/-- The last-event step's trace is empty or the single configured-slot
capture. -/
theorem captureStep_shape (cfg : Config) (env : Env) (t0 : Trace)
    (ht0 : (if cfg.capture_last_event then capture_event env cfg.last_event_file
            else (.ok (), [])) = (.ok (), t0)) :
    t0 = [] ∨ t0 = [Effect.capture cfg.last_event_file] := by
  by_cases hc : cfg.capture_last_event
  · by_cases hk : env.captureOk
    · simp [hc, hk, capture_event] at ht0
      exact Or.inr ht0.symm
    · simp [hc, hk, capture_event] at ht0
  · simp [hc] at ht0
    exact Or.inl ht0

/-- `add_tags` never issues a `find_one` query. -/
theorem add_tags_no_findOne (ns : String) (event : Event) (path : String) :
    (add_tags ns event path).filter isFindOne = [] := by
  rw [add_tags_eq]
  rw [List.filter_eq_nil]
  intro a ha
  simp only [List.mem_map] at ha
  obtain ⟨t, _, rfl⟩ := ha
  simp [isFindOne]

/-- `remove_tags` never issues a `find_one` query. -/
theorem remove_tags_no_findOne (ns : String) (event : Event) (path : String) :
    (remove_tags ns event path).filter isFindOne = [] := by
  rw [remove_tags_eq]
  rw [List.filter_eq_nil]
  intro a ha
  simp only [List.mem_map] at ha
  obtain ⟨t, _, rfl⟩ := ha
  simp [isFindOne]

/-- Once the template lookup and the shot lookup both return, the
resolution trace contains exactly one `find_one` query — for the event's
entity id — and an `apply_fields` call on the record-derived field map,
whatever the composition outcome. -/
theorem bootstrap_filter_findOne (env : Env) (event : Event) (fs : Option FullShot)
    (htempl : env.templates = .ok ()) (hfind : env.findOneResult = .ok fs) :
    ((bootstrap_engine_to_shot_path env event).2.filter isFindOne)
      = [findOneEffect event.entity.id] ∧
    Effect.applyFields (shotFieldMap fs) ∈ (bootstrap_engine_to_shot_path env event).2 := by
  rcases h3 : env.applyFields (shotFieldMap fs) with e3 | p
  · rcases e3 with _ | msg | _ | _ | _
    case tankError =>
      by_cases h4 : env.captureOk <;>
        simp [bootstrap_engine_to_shot_path, capture_event, findOneEffect, isFindOne,
          htempl, hfind, h3, h4]
    all_goals
      simp [bootstrap_engine_to_shot_path, findOneEffect, isFindOne, htempl, hfind, h3]
  · simp [bootstrap_engine_to_shot_path, findOneEffect, isFindOne, htempl, hfind, h3]

/-- Auxiliary form of the namespace invariant, given the last-event step's
outcome. -/
theorem keyword_ns_aux (cfg : Config) (env : Env) (event : Event) (proj : ProjectRef)
    (t0 : Trace)
    (hp : event.project = some proj)
    (ht0 : (if cfg.capture_last_event then capture_event env cfg.last_event_file
            else (.ok (), [])) = (.ok (), t0))
    (hns : ∀ e ∈ t0, isKeywordCmd e = false) :
    ∀ e ∈ (shothammer cfg env event).2, keywordNsOk cfg.sghs_tag_namespace e = true := by
  intro e he
  unfold shothammer at he
  rw [hp, ht0] at he
  rcases ha : cfg.sghs_projects with _ | allowed <;> rw [ha] at he
  · simp at he
    exact not_keyword_nsOk (hns e he) _
  · by_cases hm : proj.id ∈ allowed
    · rcases hb : bootstrap_engine_to_shot_path env event with ⟨r1, t1⟩
      have hb2 : ∀ x ∈ t1, isKeywordCmd x = false := by
        intro x hx
        have hball := bootstrap_no_keyword env event x
        rw [hb] at hball
        exact hball hx
      rw [hb] at he
      rcases r1 with e1 | p1
      · simp [hm] at he
        rcases he with he | he
        · exact not_keyword_nsOk (hns e he) _
        · exact not_keyword_nsOk (hb2 e he) _
      · rcases p1 with _ | path
        · simp [hm] at he
          rcases he with he | he
          · exact not_keyword_nsOk (hns e he) _
          · exact not_keyword_nsOk (hb2 e he) _
        · by_cases hpath : path = ""
          · simp [hm, hpath] at he
            rcases he with he | he
            · exact not_keyword_nsOk (hns e he) _
            · exact not_keyword_nsOk (hb2 e he) _
          · simp [hm, hpath] at he
            rcases he with he | he | he | he
            · exact not_keyword_nsOk (hns e he) _
            · exact not_keyword_nsOk (hb2 e he) _
            · exact add_tags_ns _ event path e he
            · exact remove_tags_ns _ event path e he
    · simp [hm] at he
      exact not_keyword_nsOk (hns e he) _

/-- Namespace invariant over a whole invocation: every keyword command in
the trace carries a keyword starting with the configured namespace. -/
theorem shothammer_keyword_ns (cfg : Config) (env : Env) (event : Event) :
    ∀ e ∈ (shothammer cfg env event).2, keywordNsOk cfg.sghs_tag_namespace e = true := by
  intro e he
  rcases hp : event.project with _ | proj
  · simp [shothammer, hp, percentI, get_shot_code] at he
  · by_cases hc : cfg.capture_last_event
    · by_cases hk : env.captureOk
      · refine keyword_ns_aux cfg env event proj [Effect.capture cfg.last_event_file]
          hp ?_ ?_ e he
        · simp [hc, hk, capture_event]
        · intro x hx
          simp at hx
          subst hx
          rfl
      · simp [shothammer, hp, hc, hk, capture_event] at he
    · refine keyword_ns_aux cfg env event proj [] hp ?_ ?_ e he
      · simp [hc]
      · intro x hx
        simp at hx

/-! ## Claims -/

/-- Claim C1. The claim (from the spec): with an empty/unset allow-list every
tag-attribute-change event is in scope and the invocation never fails.  The
code instead turns the empty `SGHS_PROJECTS` setting into Python `None`
(lines 16-19) and line 98 then evaluates `get_project_id(event) in None`,
which raises `TypeError`: the invocation fails before any path resolution,
for every event, whenever the allow-list is empty.  This theorem evaluates
the handler on a concrete well-formed attribute-change event under the
empty allow-list and shows the `TypeError` escaping with no path
resolution attempted. -/
theorem c1_empty_allowlist_raises :
    shothammer cfgEmpty envOkEx eventEx = (.error .typeError, []) := rfl

/-- Claim C2 counterexample. The claim says a non-attribute-change metaType
short-circuits processing: no entity lookup and no keyword command.  But
`shothammer` never consults `event['meta']['type']` (`is_attribute_change`
is defined and never called): on a concrete event with
`metaType = "new_entity"` and an allow-listed project, the trace contains
both the `find_one` lookup and a keyword-add command. -/
theorem c2_no_metatype_check_counterexample :
    is_attribute_change evC2 = false ∧
    findOneEffect 9502 ∈ (shothammer cfgEx envOkEx evC2).2 ∧
    Effect.keywordAdd "/proj/seq01/ep01/sh010" "sghs:hero" false
      ∈ (shothammer cfgEx envOkEx evC2).2 := by
  refine ⟨rfl, ?_, ?_⟩ <;> decide

/-- Claim C2 amended. The handler performs no metaType check at all (the only
metaType restriction is the registration-time event filter): two events
differing only in `meta.type` produce identical results and traces, so
scope inside the handler depends only on the project allow-list, and an
allowed-project event of any metaType proceeds to lookup, composition and
keyword commands. -/
theorem c2_metatype_irrelevant (cfg : Config) (env : Env) (proj : Option ProjectRef)
    (ent : EntityRef) (ty ty' : String) (added removed : List TagRef) (t : PyDateTime) :
    shothammer cfg env ⟨proj, ent, ⟨ty, added, removed⟩, t⟩
      = shothammer cfg env ⟨proj, ent, ⟨ty', added, removed⟩, t⟩ := rfl

/-- Claim C3 counterexample. The claim says the engine is destroyed on
*every* exit path, including exceptions raised during the lookup.  The
source calls `engine.destroy()` on the straight-line path only (no
`try/finally`): when `find_one` raises, the exception propagates and the
trace contains no `engineDestroy`. -/
theorem c3_engine_leak_counterexample :
    (bootstrap_engine_to_shot_path envFindRaiseEx eventEx).1 = .error .otherError ∧
    Effect.engineDestroy ∉ (bootstrap_engine_to_shot_path envFindRaiseEx eventEx).2 := by
  refine ⟨rfl, ?_⟩
  decide

/-- Claim C4. The claim (from the spec): a null-project event logs the shot's
display code with reason "no project on event" and returns normally.  In
the code, the `except TypeError` handler (lines 89-91) evaluates
`"Project is none in event from shot %i" % get_shot_code(event)`, and
`get_shot_code` returns the display-code *string* (its own annotation says
`-> str`), so the `%i` conversion raises a fresh `TypeError` inside the
handler, which escapes: the invocation throws and logs nothing.  This
theorem evaluates the handler on a concrete null-project event. -/

theorem c4_null_project_raises :
    shothammer cfgEx envOkEx evNoProjEx = (.error .typeError, []) := rfl

/-- Claim C3 amended. The engine acquired by path resolution is destroyed
exactly once, as the last action, on every *normal-return* exit path
(successful composition, and handled `TankError` composition failure with
a successful capture write) — but it is *not* destroyed when an exception
escapes the template lookup, the shot lookup, the template call, or the
failure-capture write: on every raising path the trace contains no
teardown. -/
theorem c3_destroy_on_normal_return_only (env : Env) (event : Event) :
    (∀ r, (bootstrap_engine_to_shot_path env event).1 = .ok r →
      ∃ t, (bootstrap_engine_to_shot_path env event).2 = t ++ [Effect.engineDestroy]
        ∧ Effect.engineDestroy ∉ t) ∧
    (∀ er, (bootstrap_engine_to_shot_path env event).1 = .error er →
      Effect.engineDestroy ∉ (bootstrap_engine_to_shot_path env event).2) := by
  rcases h1 : env.templates with e1 | u
  · simp [bootstrap_engine_to_shot_path, h1]
  · cases u
    rcases h2 : env.findOneResult with e2 | fs
    · simp [bootstrap_engine_to_shot_path, h1, h2, findOneEffect]
    · rcases h3 : env.applyFields (shotFieldMap fs) with e3 | p
      · rcases e3 with _ | msg | _ | _ | _
        case tankError =>
          by_cases h4 : env.captureOk
          · constructor
            · intro r _
              refine ⟨[findOneEffect event.entity.id,
                Effect.applyFields (shotFieldMap fs),
                Effect.logError
                  (tankLogMsg (failureCaptureFilename event.entity.id event.created_at) msg),
                Effect.capture (failureCaptureFilename event.entity.id event.created_at)],
                ?_, ?_⟩
              · rw [bootstrap_tank_eq env event fs msg h1 h2 h3 h4]
                rfl
              · simp [findOneEffect]
            · intro er her
              rw [bootstrap_tank_eq env event fs msg h1 h2 h3 h4] at her
              simp at her
          · simp [bootstrap_engine_to_shot_path, capture_event, h1, h2, h3, h4]
        all_goals simp [bootstrap_engine_to_shot_path, h1, h2, h3]
      · constructor
        · intro r _
          refine ⟨[findOneEffect event.entity.id,
            Effect.applyFields (shotFieldMap fs)], ?_, ?_⟩
          · rw [bootstrap_ok_eq env event fs p h1 h2 h3]
            rfl
          · simp [findOneEffect]
        · intro er her
          rw [bootstrap_ok_eq env event fs p h1 h2 h3] at her
          simp at her

/-- Witness for the amended C3 theorem: on an all-success run the teardown
is the final effect, occurring once. -/
theorem c3_destroy_on_normal_return_only_witness :
    ∃ t, (bootstrap_engine_to_shot_path envOkEx eventEx).2 = t ++ [Effect.engineDestroy]
      ∧ Effect.engineDestroy ∉ t :=
  (c3_destroy_on_normal_return_only envOkEx eventEx).1 (some "/proj/seq01/ep01/sh010") rfl

/-- Claim C5 counterexample. The claim says the composer passes
`{Shot: code, Sequence: the record's sequence *name*, Episode: episode
name}`.  The code assigns `Sequence = full_shot['sg_sequence']` — the raw
linked-entity dict, never taking `['name']` (line 186; contrast Episode on
line 191).  On a concrete in-scope run with the sequence entity named
`"seq01"`, the field map actually passed to `apply_fields` differs from the
spec's field map, and the spec's field map is never passed. -/
theorem c5_sequence_raw_entity_counterexample :
    shotFieldMap (some fullShotEx) ≠ specFieldMap fullShotEx ∧
    Effect.applyFields (shotFieldMap (some fullShotEx))
      ∈ (shothammer cfgEx envOkEx eventEx).2 ∧
    Effect.applyFields (specFieldMap fullShotEx)
      ∉ (shothammer cfgEx envOkEx eventEx).2 := by
  refine ⟨by decide, ?_, ?_⟩ <;> decide

/-- Claim C5 amended. For every in-scope event whose lookup returns a record,
the invocation issues exactly one `find_one` query — entity type `"Shot"`,
filter `[["id", "is", <entity id>]]`, fields
`["id", "type", "code", "sg_episode", "sg_sequence"]` — and passes the
template engine the field map `{Shot: the record's code, Sequence: the
record's raw sg_sequence linked entity (not its name), Episode: the
record's episode name}`. -/
theorem c5_one_lookup_and_field_map (cfg : Config) (env : Env) (event : Event)
    (proj : ProjectRef) (allowed : List Int) (t0 : Trace) (fs : FullShot)
    (hproj : event.project = some proj)
    (hallow : cfg.sghs_projects = some allowed)
    (hmem : proj.id ∈ allowed)
    (ht0 : (if cfg.capture_last_event then capture_event env cfg.last_event_file
            else (.ok (), [])) = (.ok (), t0))
    (htempl : env.templates = .ok ())
    (hfind : env.findOneResult = .ok (some fs)) :
    ((shothammer cfg env event).2.filter isFindOne) = [findOneEffect event.entity.id] ∧
    Effect.applyFields
      { Shot := match fs.code with
          | Option.none => SGValue.none
          | some c => SGValue.str c
        Sequence := match fs.sg_sequence with
          | Option.none => SGValue.none
          | some e => SGValue.entity e
        Episode := match fs.sg_episode with
          | Option.none => SGValue.none
          | some e => SGValue.str e.name } ∈ (shothammer cfg env event).2 := by
  have hfm : Effect.applyFields
      { Shot := match fs.code with
          | Option.none => SGValue.none
          | some c => SGValue.str c
        Sequence := match fs.sg_sequence with
          | Option.none => SGValue.none
          | some e => SGValue.entity e
        Episode := match fs.sg_episode with
          | Option.none => SGValue.none
          | some e => SGValue.str e.name }
      = Effect.applyFields (shotFieldMap (some fs)) := rfl
  rw [hfm, shothammer_allowed_eq cfg env event proj allowed t0 hproj hallow hmem ht0]
  rcases hb : bootstrap_engine_to_shot_path env event with ⟨r1, t1⟩
  have hq := bootstrap_filter_findOne env event (some fs) htempl hfind
  rw [hb] at hq
  obtain ⟨hq1, hq2⟩ := hq
  have ht0f : t0.filter isFindOne = [] := by
    rcases captureStep_shape cfg env t0 ht0 with rfl | rfl <;> rfl
  rcases r1 with e1 | p1
  · exact ⟨by simp [List.filter_append, ht0f, hq1], by simp [List.mem_append, hq2]⟩
  · rcases p1 with _ | path
    · exact ⟨by simp [List.filter_append, ht0f, hq1], by simp [List.mem_append, hq2]⟩
    · by_cases hpath : path = ""
      · subst hpath
        simp only [if_pos rfl]
        exact ⟨by simp [List.filter_append, ht0f, hq1], by simp [List.mem_append, hq2]⟩
      · simp only [if_neg hpath]
        exact ⟨by simp [List.filter_append, ht0f, hq1, add_tags_no_findOne,
            remove_tags_no_findOne],
          by simp [List.mem_append, hq2]⟩

/-- Witness for the amended C5 theorem on the concrete all-success run. -/
theorem c5_one_lookup_and_field_map_witness :
    ((shothammer cfgEx envOkEx eventEx).2.filter isFindOne) = [findOneEffect 9502] ∧
    Effect.applyFields
      { Shot := SGValue.str "sh010", Sequence := SGValue.entity ⟨31, "seq01"⟩,
        Episode := SGValue.str "ep01" } ∈ (shothammer cfgEx envOkEx eventEx).2 :=
  c5_one_lookup_and_field_map cfgEx envOkEx eventEx projEx [5] [] fullShotEx
    rfl rfl (by decide) rfl rfl rfl

/-- Claim C6. For every in-scope event on which the template engine raises a
missing-required-field `TankError` (and the capture write itself succeeds):
the invocation returns normally (no exception to the caller) and its full
trace is exactly one lookup, one template call, one error-level log whose
message carries both the failure message and the capture filename, and one
failure capture whose filename is
`shot_id-<entity id>-<YYYY-MM-DD_HH-MM-SS>.pickle` built from the event's
second-precision timestamp — and no keyword command. -/
theorem c6_tank_failure_contract (cfg : Config) (env : Env) (event : Event)
    (proj : ProjectRef) (allowed : List Int) (fs : Option FullShot) (msg : String)
    (hproj : event.project = some proj)
    (hallow : cfg.sghs_projects = some allowed)
    (hmem : proj.id ∈ allowed)
    (hcl : cfg.capture_last_event = false)
    (htempl : env.templates = .ok ())
    (hfind : env.findOneResult = .ok fs)
    (happly : env.applyFields (shotFieldMap fs) = .error (.tankError msg))
    (hcap : env.captureOk = true) :
    shothammer cfg env event =
      (.ok (), [findOneEffect event.entity.id, Effect.applyFields (shotFieldMap fs),
        Effect.logError
          (tankLogMsg (failureCaptureFilename event.entity.id event.created_at) msg),
        Effect.capture (failureCaptureFilename event.entity.id event.created_at),
        Effect.engineDestroy]) := by
  rw [shothammer_allowed_eq cfg env event proj allowed [] hproj hallow hmem
    (by simp [hcl])]
  rw [bootstrap_tank_eq env event fs msg htempl hfind happly hcap]
  rfl

/-- Witness for C6 on a concrete run: composition failure produces exactly
the logged capture of `shot_id-9502-2021-03-04_05-06-07.pickle` and no
keyword commands, returning normally. -/
theorem c6_tank_failure_contract_witness :
    shothammer cfgEx envTankEx eventEx =
      (.ok (), [findOneEffect 9502,
        Effect.applyFields
          (shotFieldMap (some ⟨9502, "Shot", Option.none, some ⟨21, "ep01"⟩, some ⟨31, "seq01"⟩⟩)),
        Effect.logError (tankLogMsg "shot_id-9502-2021-03-04_05-06-07.pickle" "missing Shot"),
        Effect.capture "shot_id-9502-2021-03-04_05-06-07.pickle",
        Effect.engineDestroy]) := by
  rw [c6_tank_failure_contract cfgEx envTankEx eventEx projEx [5]
    (some ⟨9502, "Shot", Option.none, some ⟨21, "ep01"⟩, some ⟨31, "seq01"⟩⟩)
    "missing Shot" rfl rfl (by decide) rfl rfl rfl rfl rfl]
  rfl

/-- Claim C7. For every in-scope event with a resolved non-empty path, the
trace decomposes as a keyword-free prefix, then all keyword-add commands
for the (namespace-filtered) added tags in the event's insertion order
(duplicates processed independently, each non-recursive), then all
keyword-delete commands for the removed tags: every add precedes every
delete.  In particular a namespaced tag present in both lists yields
exactly one add command followed by exactly one delete command, neither
suppressed — the witness instantiates that case. -/
theorem c7_adds_before_removes (cfg : Config) (env : Env) (event : Event)
    (proj : ProjectRef) (allowed : List Int) (t0 t1 : Trace) (path : String)
    (hproj : event.project = some proj)
    (hallow : cfg.sghs_projects = some allowed)
    (hmem : proj.id ∈ allowed)
    (ht0 : (if cfg.capture_last_event then capture_event env cfg.last_event_file
            else (.ok (), [])) = (.ok (), t0))
    (hboot : bootstrap_engine_to_shot_path env event = (.ok (some path), t1))
    (hpath : path ≠ "") :
    ∃ pre, (shothammer cfg env event).2
        = pre
          ++ ((event.meta.added.map TagRef.name).filter
                (fun t => startswith t cfg.sghs_tag_namespace)).map
              (fun t => Effect.keywordAdd path t false)
          ++ ((event.meta.removed.map TagRef.name).filter
                (fun t => startswith t cfg.sghs_tag_namespace)).map
              (fun t => Effect.keywordDelete path t false)
        ∧ ∀ e ∈ pre, isKeywordCmd e = false := by
  refine ⟨t0 ++ t1, ?_, ?_⟩
  · rw [shothammer_allowed_eq cfg env event proj allowed t0 hproj hallow hmem ht0, hboot]
    simp only [if_neg hpath]
    rw [← add_tags_eq, ← remove_tags_eq]
  · intro e he
    rcases List.mem_append.mp he with h | h
    · exact captureStep_no_keyword cfg env t0 ht0 e h
    · have hb := bootstrap_no_keyword env event e
      rw [hboot] at hb
      exact hb h

/-- Witness for C7: a tag in both lists produces exactly one add command
followed by exactly one delete command. -/
theorem c7_adds_before_removes_witness :
    ∃ pre, (shothammer cfgEx envOkEx evBothEx).2
        = pre ++ [Effect.keywordAdd "/proj/seq01/ep01/sh010" "sghs:x" false]
            ++ [Effect.keywordDelete "/proj/seq01/ep01/sh010" "sghs:x" false]
        ∧ ∀ e ∈ pre, isKeywordCmd e = false :=
  c7_adds_before_removes cfgEx envOkEx evBothEx projEx [5] []
    [findOneEffect 9502, Effect.applyFields (shotFieldMap (some fullShotEx)),
      Effect.engineDestroy]
    "/proj/seq01/ep01/sh010" rfl rfl (by decide) rfl rfl (by decide)

/-- Claim C8. Keyword operations filter on the configured namespace: a
keyword not starting with the prefix issues zero commands (silent no-op,
not an error), a keyword starting with it issues exactly one command; and
every keyword command appearing in any invocation's trace carries a
keyword starting with the configured prefix. -/
theorem c8_namespace_filter (ns path keyword : String) (r : Bool)
    (cfg : Config) (env : Env) (event : Event) :
    (startswith keyword ns = false →
      hs_keyword_add ns path keyword r = [] ∧
      hs_keyword_delete ns path keyword r = []) ∧
    (startswith keyword ns = true →
      hs_keyword_add ns path keyword r = [Effect.keywordAdd path keyword r] ∧
      hs_keyword_delete ns path keyword r = [Effect.keywordDelete path keyword r]) ∧
    (∀ e ∈ (shothammer cfg env event).2, keywordNsOk cfg.sghs_tag_namespace e = true) := by
  refine ⟨?_, ?_, shothammer_keyword_ns cfg env event⟩
  · intro h
    constructor <;> simp [hs_keyword_add, hs_keyword_delete, h]
  · intro h
    constructor <;> simp [hs_keyword_add, hs_keyword_delete, h]

/-- Witness for C8: `other:foo` yields zero commands, `sghs:hero` exactly
one, and a keyword command from a concrete trace is namespaced. -/
theorem c8_namespace_filter_witness :
    (hs_keyword_add "sghs:" "/p" "other:foo" false = [] ∧
      hs_keyword_delete "sghs:" "/p" "other:foo" false = []) ∧
    (hs_keyword_add "sghs:" "/p" "sghs:hero" false
        = [Effect.keywordAdd "/p" "sghs:hero" false] ∧
      hs_keyword_delete "sghs:" "/p" "sghs:hero" false
        = [Effect.keywordDelete "/p" "sghs:hero" false]) ∧
    keywordNsOk "sghs:" (Effect.keywordAdd "/proj/seq01/ep01/sh010" "sghs:hero" false)
      = true :=
  ⟨(c8_namespace_filter "sghs:" "/p" "other:foo" false cfgEx envOkEx eventEx).1
      (by decide),
   (c8_namespace_filter "sghs:" "/p" "sghs:hero" false cfgEx envOkEx eventEx).2.1
      (by decide),
   (c8_namespace_filter "sghs:" "/p" "sghs:hero" false cfgEx envOkEx eventEx).2.2
      (Effect.keywordAdd "/proj/seq01/ep01/sh010" "sghs:hero" false) (by decide)⟩

/-- Claim C9. For every in-scope event whose lookup returns no record
(`find_one` → `None`): the `TypeError`-catching field derivation does not
raise — all three fields become `None` — the all-null field map flows into
composition, and (when composition signals at worst a handled `TankError`
and the capture write succeeds) resolution returns normally. -/
theorem c9_null_lookup_all_null (env : Env) (event : Event)
    (htempl : env.templates = .ok ())
    (hfind : env.findOneResult = .ok Option.none)
    (hcap : env.captureOk = true)
    (htank : ∀ er, env.applyFields (shotFieldMap Option.none) = .error er →
      ∃ msg, er = .tankError msg) :
    Effect.applyFields ⟨SGValue.none, SGValue.none, SGValue.none⟩
      ∈ (bootstrap_engine_to_shot_path env event).2 ∧
    ∃ r, (bootstrap_engine_to_shot_path env event).1 = .ok r := by
  have hfm : (⟨SGValue.none, SGValue.none, SGValue.none⟩ : FieldMap)
      = shotFieldMap Option.none := rfl
  rw [hfm]
  rcases h3 : env.applyFields (shotFieldMap Option.none) with er | p
  · obtain ⟨msg, rfl⟩ := htank er h3
    rw [bootstrap_tank_eq env event Option.none msg htempl hfind h3 hcap]
    exact ⟨by simp, Option.none, rfl⟩
  · rw [bootstrap_ok_eq env event Option.none p htempl hfind h3]
    exact ⟨by simp, some p, rfl⟩

/-- Witness for C9 on a concrete null-lookup run. -/
theorem c9_null_lookup_all_null_witness :
    Effect.applyFields ⟨SGValue.none, SGValue.none, SGValue.none⟩
      ∈ (bootstrap_engine_to_shot_path envNullLookupEx eventEx).2 ∧
    ∃ r, (bootstrap_engine_to_shot_path envNullLookupEx eventEx).1 = .ok r :=
  c9_null_lookup_all_null envNullLookupEx eventEx rfl rfl rfl
    (fun er h => ⟨"missing fields", (Except.error.inj h).symm⟩)

/-- Claim C10. On every composition failure the filename passed to failure
capture is the bare `shot_id-<id>-<timestamp>.pickle` string with no
directory component (no `/` or `\` anywhere, so the file lands relative to
the process working directory), and the configured `LAST_EVENT_FILE` path
is used only for the last-event slot: the capture writes in the trace are
exactly the optional last-event slot write followed by the bare-named
failure capture. -/
theorem c10_bare_failure_filename (cfg : Config) (env : Env) (event : Event)
    (proj : ProjectRef) (allowed : List Int) (fs : Option FullShot) (msg : String)
    (hproj : event.project = some proj)
    (hallow : cfg.sghs_projects = some allowed)
    (hmem : proj.id ∈ allowed)
    (htempl : env.templates = .ok ())
    (hfind : env.findOneResult = .ok fs)
    (happly : env.applyFields (shotFieldMap fs) = .error (.tankError msg))
    (hcap : env.captureOk = true) :
    ((shothammer cfg env event).2.filterMap captureFile)
      = (if cfg.capture_last_event then [cfg.last_event_file] else [])
        ++ [failureCaptureFilename event.entity.id event.created_at] ∧
    noSep (failureCaptureFilename event.entity.id event.created_at) := by
  refine ⟨?_, failureCaptureFilename_not_sep _ _⟩
  have ht0 : (if cfg.capture_last_event then capture_event env cfg.last_event_file
      else (.ok (), []))
      = (.ok (), if cfg.capture_last_event
          then [Effect.capture cfg.last_event_file] else []) := by
    by_cases hc : cfg.capture_last_event <;> simp [hc, hcap, capture_event]
  rw [shothammer_allowed_eq cfg env event proj allowed _ hproj hallow hmem ht0]
  rw [bootstrap_tank_eq env event fs msg htempl hfind happly hcap]
  by_cases hc : cfg.capture_last_event <;>
    simp [hc, List.filterMap_append, captureFile, findOneEffect]

/-- Witness for C10 on a concrete failing run with last-event capture on:
the slot write uses the configured path, the failure capture the bare
generated name, which has no separator. -/
theorem c10_bare_failure_filename_witness :
    ((shothammer cfgLastEx envTankEx eventEx).2.filterMap captureFile)
      = ["last_event.pickle", "shot_id-9502-2021-03-04_05-06-07.pickle"] ∧
    noSep "shot_id-9502-2021-03-04_05-06-07.pickle" :=
  c10_bare_failure_filename cfgLastEx envTankEx eventEx projEx [5]
    (some ⟨9502, "Shot", Option.none, some ⟨21, "ep01"⟩, some ⟨31, "seq01"⟩⟩)
    "missing Shot" rfl rfl (by decide) rfl rfl rfl rfl
